import Mathlib

/-!
Shallow embedding of the keephy_organizations service (an Express + Mongoose
REST service over four nested document collections: Organization → Brand →
Business → Franchise) together with theorems about its behaviour.

Source files embedded:
  - src/src/models/Business.js        (businessSchema, virtuals, checkLimit)
  - src/src/models/Franchise.js       (franchiseSchema, isOpen, and the HTTP
                                       route handlers of the service entry point)
  - src/unnamed/part_000              (organizationSchema and brandSchema with
                                       their virtuals and checkLimit methods)

Conventions of the embedding:
  - Mongo ObjectIds are modelled as natural numbers.
  - Timestamps (Date values) are modelled as natural numbers; each HTTP request
    is modelled with a single clock reading passed in as a parameter.
  - A nullable / possibly-undefined document field is an Option.
  - The document store is an explicit state value (Store) and each route
    handler is a pure function from the store (plus request data) to the
    response, and, for mutating routes, the successor store.
  - JavaScript string comparison (used by operating-hours checks and by the
    name-ascending sort order) is code-unit-wise lexicographic comparison,
    modelled by comparing the lists of character code points.
-/

namespace Keephy

/-! ### JavaScript string comparison -/

/-- Lexicographic less-or-equal on lists of code points, as JavaScript
compares strings code-unit by code-unit. -/
def codeListLe : List Nat → List Nat → Bool
  | [], _ => true
  | _ :: _, [] => false
  | a :: as, b :: bs =>
    if a < b then true
    else if b < a then false
    else codeListLe as bs

/-- JavaScript string comparison a <= b (code-unit-wise lexicographic). -/
def jsStrLe (a b : String) : Bool :=
  codeListLe (a.data.map Char.toNat) (b.data.map Char.toNat)

theorem codeListLe_total : ∀ as bs : List Nat, (codeListLe as bs || codeListLe bs as) = true := by
  intro as
  induction as with
  | nil => intro bs; simp [codeListLe]
  | cons a as ih =>
    intro bs
    cases bs with
    | nil => simp [codeListLe]
    | cons b bs =>
      simp only [codeListLe]
      rcases Nat.lt_trichotomy a b with h | h | h
      · simp [h]
      · simp [h, Nat.lt_irrefl, ih bs]
      · simp [h, Nat.not_lt.mpr (Nat.le_of_lt h)]

theorem codeListLe_trans : ∀ as bs cs : List Nat,
    codeListLe as bs = true → codeListLe bs cs = true → codeListLe as cs = true := by
  intro as
  induction as with
  | nil => intro bs cs _ _; simp [codeListLe]
  | cons a as ih =>
    intro bs cs h1 h2
    cases bs with
    | nil => simp [codeListLe] at h1
    | cons b bs =>
      cases cs with
      | nil => simp [codeListLe] at h2
      | cons c cs =>
        simp only [codeListLe] at h1 h2 ⊢
        rcases Nat.lt_trichotomy a b with hab | hab | hab
        · rcases Nat.lt_trichotomy b c with hbc | hbc | hbc
          · simp [Nat.lt_trans hab hbc]
          · subst hbc; simp [hab]
          · simp [hbc, Nat.not_lt.mpr (Nat.le_of_lt hbc)] at h2
        · subst hab
          rcases Nat.lt_trichotomy a c with hac | hac | hac
          · simp [hac]
          · subst hac
            simp only [Nat.lt_irrefl, if_false] at h1 h2 ⊢
            exact ih _ _ h1 h2
          · simp [hac, Nat.not_lt.mpr (Nat.le_of_lt hac)] at h2
        · simp [hab, Nat.not_lt.mpr (Nat.le_of_lt hab)] at h1

theorem jsStrLe_total (a b : String) : (jsStrLe a b || jsStrLe b a) = true :=
  codeListLe_total _ _

theorem jsStrLe_trans {a b c : String} (h1 : jsStrLe a b = true) (h2 : jsStrLe b c = true) :
    jsStrLe a c = true :=
  codeListLe_trans _ _ _ h1 h2

/-! ### Data model: Organization (src/unnamed/part_000, organizationSchema) -/

/-- Nested postal address used by organization and brand contact blocks
(street / city / state / country / zipCode, all optional). -/
structure PostalAddress where
  street : Option String
  city : Option String
  state : Option String
  country : Option String
  zipCode : Option String
deriving Repr, DecidableEq

/-- organizationSchema settings.features. -/
structure OrgFeatures where
  multiBrand : Bool
  whiteLabel : Bool
  customDomain : Bool
deriving Repr, DecidableEq

/-- organizationSchema settings (timezone / currency / language / features). -/
structure OrgSettings where
  timezone : String
  currency : String
  language : String
  features : OrgFeatures
deriving Repr, DecidableEq

/-- Schema defaults of organizationSchema settings. -/
def defaultOrgSettings : OrgSettings :=
  { timezone := "UTC", currency := "USD", language := "en",
    features := { multiBrand := false, whiteLabel := false, customDomain := false } }

/-- organizationSchema contact; email is required, the rest optional. -/
structure OrgContact where
  email : String
  phone : Option String
  address : PostalAddress
deriving Repr, DecidableEq

/-- organizationSchema subscription (plan / status / trialEndsAt / billingCycle). -/
structure OrgSubscription where
  plan : String
  status : String
  trialEndsAt : Option Nat
  billingCycle : String
deriving Repr, DecidableEq

/-- Schema defaults of organizationSchema subscription. -/
def defaultOrgSubscription : OrgSubscription :=
  { plan := "basic", status := "trial", trialEndsAt := none, billingCycle := "monthly" }

/-- organizationSchema limits. A limit value of none models the null
(unlimited) sentinel that checkLimit tests with a strict equality. -/
structure OrgLimits where
  brands : Option Int
  businesses : Option Int
  users : Option Int
  storage : Option Int
deriving Repr, DecidableEq

/-- Schema defaults of organizationSchema limits (1 / 5 / 10 / 1024). -/
def defaultOrgLimits : OrgLimits :=
  { brands := some 1, businesses := some 5, users := some 10, storage := some 1024 }

/-- An Organization document (organizationSchema in src/unnamed/part_000). -/
structure Organization where
  id : Nat
  name : String
  description : Option String
  domain : Option String
  logo : Option String
  settings : OrgSettings
  contact : OrgContact
  subscription : OrgSubscription
  limits : OrgLimits
  isActive : Bool
  createdAt : Nat
  updatedAt : Nat
deriving Repr, DecidableEq

/-! ### Data model: Brand (src/unnamed/part_000, brandSchema) -/

/-- brandSchema brandGuidelines. -/
structure BrandGuidelines where
  primaryColor : Option String
  secondaryColor : Option String
  fontFamily : Option String
  logoVariations : List String
deriving Repr, DecidableEq

/-- brandSchema settings.features. -/
structure BrandFeatures where
  customForms : Bool
  customReports : Bool
  whiteLabel : Bool
deriving Repr, DecidableEq

/-- brandSchema settings. -/
structure BrandSettings where
  theme : String
  customDomain : Option String
  features : BrandFeatures
deriving Repr, DecidableEq

/-- Schema defaults of brandSchema settings. -/
def defaultBrandSettings : BrandSettings :=
  { theme := "default", customDomain := none,
    features := { customForms := false, customReports := false, whiteLabel := false } }

/-- brandSchema contact; all fields optional. -/
structure BrandContact where
  email : Option String
  phone : Option String
  address : PostalAddress
deriving Repr, DecidableEq

/-- brandSchema limits (businesses / users / forms), none = null sentinel. -/
structure BrandLimits where
  businesses : Option Int
  users : Option Int
  forms : Option Int
deriving Repr, DecidableEq

/-- Schema defaults of brandSchema limits (10 / 50 / 100). -/
def defaultBrandLimits : BrandLimits :=
  { businesses := some 10, users := some 50, forms := some 100 }

/-- A Brand document (brandSchema in src/unnamed/part_000). -/
structure Brand where
  id : Nat
  name : String
  description : Option String
  organizationId : Nat
  logo : Option String
  brandGuidelines : BrandGuidelines
  settings : BrandSettings
  contact : BrandContact
  limits : BrandLimits
  isActive : Bool
  createdAt : Nat
  updatedAt : Nat
deriving Repr, DecidableEq

/-! ### Data model: Business (src/src/models/Business.js) -/

/-- GeoJSON point; the schema field named type (constant Point) is renamed
pointType because type is reserved. Coordinates are [longitude, latitude]. -/
structure GeoPoint where
  pointType : String
  coordinates : List Int
deriving Repr, DecidableEq

/-- businessSchema contact.address (all optional, coordinates default [0,0]). -/
structure BusinessAddress where
  street : Option String
  city : Option String
  state : Option String
  country : Option String
  zipCode : Option String
  coordinates : GeoPoint
deriving Repr, DecidableEq

/-- businessSchema contact; email is required. -/
structure BusinessContact where
  email : String
  phone : Option String
  website : Option String
  address : BusinessAddress
deriving Repr, DecidableEq

/-- businessSchema settings.notifications. -/
structure NotificationSettings where
  email : Bool
  sms : Bool
  push : Bool
deriving Repr, DecidableEq

/-- businessSchema settings.features. -/
structure BusinessFeatures where
  customForms : Bool
  customReports : Bool
  aiInsights : Bool
  integrations : Bool
deriving Repr, DecidableEq

/-- businessSchema settings. -/
structure BusinessSettings where
  timezone : String
  currency : String
  language : String
  notifications : NotificationSettings
  features : BusinessFeatures
deriving Repr, DecidableEq

/-- Schema defaults of businessSchema settings. -/
def defaultBusinessSettings : BusinessSettings :=
  { timezone := "UTC", currency := "USD", language := "en",
    notifications := { email := true, sms := false, push := false },
    features := { customForms := false, customReports := false,
                  aiInsights := false, integrations := false } }

/-- businessSchema subscription.limits
(franchises / forms / submissions / staff / storage), none = null sentinel. -/
structure BusinessLimits where
  franchises : Option Int
  forms : Option Int
  submissions : Option Int
  staff : Option Int
  storage : Option Int
deriving Repr, DecidableEq

/-- Schema defaults of businessSchema subscription.limits (1 / 5 / 100 / 5 / 1024). -/
def defaultBusinessLimits : BusinessLimits :=
  { franchises := some 1, forms := some 5, submissions := some 100,
    staff := some 5, storage := some 1024 }

/-- businessSchema subscription. -/
structure BusinessSubscription where
  plan : String
  status : String
  trialEndsAt : Option Nat
  features : List String
  limits : BusinessLimits
deriving Repr, DecidableEq

/-- Schema defaults of businessSchema subscription. -/
def defaultBusinessSubscription : BusinessSubscription :=
  { plan := "basic", status := "trial", trialEndsAt := none, features := [],
    limits := defaultBusinessLimits }

/-- The enumerated industry values accepted by businessSchema. -/
def industryEnum : List String :=
  ["restaurant", "hotel", "retail", "healthcare", "education",
   "fitness", "beauty", "automotive", "real_estate", "other"]

/-- The enumerated businessType values accepted by businessSchema. -/
def businessTypeEnum : List String :=
  ["single_location", "multi_location", "franchise", "chain"]

/-- A Business document (businessSchema in src/src/models/Business.js). -/
structure Business where
  id : Nat
  name : String
  description : Option String
  organizationId : Nat
  brandId : Option Nat
  ownerId : Nat
  industry : String
  businessType : String
  contact : BusinessContact
  settings : BusinessSettings
  subscription : BusinessSubscription
  isActive : Bool
  createdAt : Nat
  updatedAt : Nat
deriving Repr, DecidableEq

/-! ### Data model: Franchise (src/src/models/Franchise.js) -/

/-- One day entry of franchiseSchema settings.operatingHours. The schema
fields named open and close are renamed openTime and closeTime because those
identifiers are reserved; they are plain optional strings of shape HH:MM. -/
structure DayHours where
  openTime : Option String
  closeTime : Option String
  closed : Bool
deriving Repr, DecidableEq

/-- franchiseSchema settings.operatingHours: one entry per full weekday name. -/
structure OperatingHours where
  monday : DayHours
  tuesday : DayHours
  wednesday : DayHours
  thursday : DayHours
  friday : DayHours
  saturday : DayHours
  sunday : DayHours
deriving Repr, DecidableEq

/-- franchiseSchema settings.features. -/
structure FranchiseFeatures where
  wifi : Bool
  parking : Bool
  delivery : Bool
  takeout : Bool
  outdoorSeating : Bool
deriving Repr, DecidableEq

/-- franchiseSchema settings. -/
structure FranchiseSettings where
  timezone : String
  operatingHours : OperatingHours
  features : FranchiseFeatures
deriving Repr, DecidableEq

/-- franchiseSchema address; street / city / state / country / zipCode and
coordinates.coordinates are all required. -/
structure FranchiseAddress where
  street : String
  city : String
  state : String
  country : String
  zipCode : String
  coordinates : GeoPoint
deriving Repr, DecidableEq

/-- franchiseSchema contact; all fields optional. -/
structure FranchiseContact where
  phone : Option String
  email : Option String
  website : Option String
deriving Repr, DecidableEq

/-- franchiseSchema capacity (defaults 50 / 30). -/
structure FranchiseCapacity where
  maxCustomers : Int
  seatingCapacity : Int
deriving Repr, DecidableEq

/-- A Franchise document (franchiseSchema in src/src/models/Franchise.js). -/
structure Franchise where
  id : Nat
  name : String
  businessId : Nat
  managerId : Option Nat
  address : FranchiseAddress
  contact : FranchiseContact
  settings : FranchiseSettings
  capacity : FranchiseCapacity
  isActive : Bool
  createdAt : Nat
  updatedAt : Nat
deriving Repr, DecidableEq

/-- A record of the external Staff collection, referenced only through the
staffCount virtual (foreign field businessId) and getActiveStaff. -/
structure StaffRecord where
  id : Nat
  businessId : Nat
  franchiseId : Option Nat
  isActive : Bool
deriving Repr, DecidableEq

/-- The document store holding the four collections of the service together
with the external Staff collection referenced by the count virtuals. -/
structure Store where
  organizations : List Organization
  brands : List Brand
  businesses : List Business
  franchises : List Franchise
  staffRecords : List StaffRecord
deriving Repr, DecidableEq

/-! ### Count virtuals

The schemas declare count virtuals via cross-collection lookups keyed only on
the parent-id foreign field (organizationSchema.virtual brandCount and
businessCount, brandSchema.virtual businessCount, businessSchema.virtual
franchiseCount and staffCount). None of these virtuals carries an isActive
match clause, so each counts all children with the given parent id,
regardless of isActive. -/

/-- organizationSchema brandCount virtual: Brand documents whose
organizationId equals this organization's id. -/
def brandCountOf (s : Store) (o : Organization) : Nat :=
  (s.brands.filter (fun b => b.organizationId == o.id)).length

/-- organizationSchema businessCount virtual: Business documents whose
organizationId equals this organization's id. -/
def businessCountOfOrg (s : Store) (o : Organization) : Nat :=
  (s.businesses.filter (fun b => b.organizationId == o.id)).length

/-- brandSchema businessCount virtual: Business documents whose brandId
equals this brand's id. -/
def businessCountOfBrand (s : Store) (br : Brand) : Nat :=
  (s.businesses.filter (fun b => b.brandId == some br.id)).length

/-- businessSchema franchiseCount virtual: Franchise documents whose
businessId equals this business's id. -/
def franchiseCountOf (s : Store) (b : Business) : Nat :=
  (s.franchises.filter (fun f => f.businessId == b.id)).length

/-- businessSchema staffCount virtual: Staff documents whose businessId
equals this business's id. -/
def staffCountOf (s : Store) (b : Business) : Nat :=
  (s.staffRecords.filter (fun st => st.businessId == b.id)).length

/-! ### checkLimit methods -/

/-- JavaScript property read limits[limitType] on an Organization: the outer
none models an undefined read for a key that is not a limits field. -/
def orgLimitOf (o : Organization) : String → Option (Option Int)
  | "brands" => some o.limits.brands
  | "businesses" => some o.limits.businesses
  | "users" => some o.limits.users
  | "storage" => some o.limits.storage
  | _ => none

/-- JavaScript property read limits[limitType] on a Brand. -/
def brandLimitOf (br : Brand) : String → Option (Option Int)
  | "businesses" => some br.limits.businesses
  | "users" => some br.limits.users
  | "forms" => some br.limits.forms
  | _ => none

/-- JavaScript property read subscription.limits[limitType] on a Business. -/
def businessLimitOf (b : Business) : String → Option (Option Int)
  | "franchises" => some b.subscription.limits.franchises
  | "forms" => some b.subscription.limits.forms
  | "submissions" => some b.subscription.limits.submissions
  | "staff" => some b.subscription.limits.staff
  | "storage" => some b.subscription.limits.storage
  | _ => none

/-- JavaScript relational comparison count < limit as used inside checkLimit.
Only the genuine-number case can be reached there, because the null sentinel
is returned early and missing keys fall into the default switch branch; the
remaining cases are false, matching the JS coercion result for a
non-negative count. -/
def jsCountLt (count : Nat) : Option (Option Int) → Bool
  | some (some n) => decide ((count : Int) < n)
  | _ => false

/-- organizationSchema.methods.checkLimit: returns true when
limits[limitType] is strictly null, otherwise switches on limitType, where
brands and businesses compare their count virtual against the limit and
every other limitType falls into the default branch returning true. -/
def Organization.checkLimit (s : Store) (o : Organization) (limitType : String) : Bool :=
  let limit := orgLimitOf o limitType
  if limit == some none then true
  else
    match limitType with
    | "brands" => jsCountLt (brandCountOf s o) limit
    | "businesses" => jsCountLt (businessCountOfOrg s o) limit
    | _ => true

/-- brandSchema.methods.checkLimit: null sentinel, then a switch whose only
enforced case is businesses; everything else returns true. -/
def Brand.checkLimit (s : Store) (br : Brand) (limitType : String) : Bool :=
  let limit := brandLimitOf br limitType
  if limit == some none then true
  else
    match limitType with
    | "businesses" => jsCountLt (businessCountOfBrand s br) limit
    | _ => true

/-- businessSchema.methods.checkLimit: null sentinel, then a switch enforcing
franchises and staff; everything else returns true. -/
def Business.checkLimit (s : Store) (b : Business) (limitType : String) : Bool :=
  let limit := businessLimitOf b limitType
  if limit == some none then true
  else
    match limitType with
    | "franchises" => jsCountLt (franchiseCountOf s b) limit
    | "staff" => jsCountLt (staffCountOf s b) limit
    | _ => true

/-- Count of active franchises of a business, as the specification words it
(active only). This definition follows the specification, not the code, and
exists to compare the two: the code's franchiseCount virtual carries no
isActive filter. -/
def activeFranchiseCountSpec (s : Store) (b : Business) : Nat :=
  (s.franchises.filter (fun f => f.businessId == b.id && f.isActive)).length

/-! ### isOpen (franchiseSchema.methods.isOpen) -/

/-- Weekday of an instant. -/
inductive Weekday where
  | monday | tuesday | wednesday | thursday | friday | saturday | sunday
deriving Repr, DecidableEq

/-- An instant as isOpen consumes it: a weekday plus the zero-padded HH:MM
local time-of-day string produced by date.toTimeString().substring(0, 5). -/
structure Instant where
  weekday : Weekday
  timeOfDay : String
deriving Repr, DecidableEq

/-- A thrown JavaScript runtime error. -/
inductive JsError where
  | typeError
deriving Repr, DecidableEq

/-- The day key the isOpen method computes. The source line is
const day = date.toLocaleLowerCase().substring(0, 3); Date objects have no
toLocaleLowerCase method, so as written every call throws a TypeError
immediately. This definition reads the line charitably, as lowercasing the
weekday name and keeping its first three characters, which is the weakest
repair that lets execution continue to the next line. -/
def dayKey : Weekday → String
  | .monday => "mon"
  | .tuesday => "tue"
  | .wednesday => "wed"
  | .thursday => "thu"
  | .friday => "fri"
  | .saturday => "sat"
  | .sunday => "sun"

/-- JavaScript property read settings.operatingHours[day]: the keys of the
operatingHours subdocument are the full weekday names, every other key reads
as undefined (none). -/
def lookupOperatingHours (oh : OperatingHours) : String → Option DayHours
  | "monday" => some oh.monday
  | "tuesday" => some oh.tuesday
  | "wednesday" => some oh.wednesday
  | "thursday" => some oh.thursday
  | "friday" => some oh.friday
  | "saturday" => some oh.saturday
  | "sunday" => some oh.sunday
  | _ => none

/-- JavaScript comparison a >= b where b may be undefined (none): any
relational comparison against undefined is false. -/
def jsStrGeOpt (a : String) : Option String → Bool
  | some b => jsStrLe b a
  | none => false

/-- JavaScript comparison a <= b where b may be undefined (none). -/
def jsStrLeOpt (a : String) : Option String → Bool
  | some b => jsStrLe a b
  | none => false

/-- franchiseSchema.methods.isOpen. The method computes a day key (see
dayKey), reads settings.operatingHours[day], and then dereferences
daySettings.closed. Because the computed key is a three-letter abbreviation
while the operatingHours keys are full weekday names, the read yields
undefined and the dereference throws a TypeError; the closed test and the
inclusive HH:MM window comparison below it are unreachable. -/
def Franchise.isOpen (f : Franchise) (d : Instant) : Except JsError Bool :=
  match lookupOperatingHours f.settings.operatingHours (dayKey d.weekday) with
  | none => .error .typeError
  | some daySettings =>
    if daySettings.closed then .ok false
    else .ok (jsStrGeOpt d.timeOfDay daySettings.openTime &&
              jsStrLeOpt d.timeOfDay daySettings.closeTime)

/-! ### HTTP responses and route handlers (service entry point in
src/src/models/Franchise.js, second document: the Express app) -/

/-- The JSON envelope every handler sends: an HTTP status, the success flag,
an optional error message and an optional data payload. -/
structure ApiResponse (α : Type) where
  status : Nat
  success : Bool
  error : Option String
  data : Option α
deriving Repr, DecidableEq

/-- GET /api/organizations/:id — findById with no isActive filter; 404 with
Organization not found when the id resolves to no document. -/
def getOrganizationById (s : Store) (id : Nat) : ApiResponse Organization :=
  match s.organizations.find? (fun o => o.id == id) with
  | none => { status := 404, success := false, error := some "Organization not found", data := none }
  | some o => { status := 200, success := true, error := none, data := some o }

/-- GET /api/businesses/:id — findById with no isActive filter. -/
def getBusinessById (s : Store) (id : Nat) : ApiResponse Business :=
  match s.businesses.find? (fun b => b.id == id) with
  | none => { status := 404, success := false, error := some "Business not found", data := none }
  | some b => { status := 200, success := true, error := none, data := some b }

/-- GET /api/franchises/:id — findById with no isActive filter. -/
def getFranchiseById (s : Store) (id : Nat) : ApiResponse Franchise :=
  match s.franchises.find? (fun f => f.id == id) with
  | none => { status := 404, success := false, error := some "Franchise not found", data := none }
  | some f => { status := 200, success := true, error := none, data := some f }

/-- The projection populate brandId name substitutes for a business's
brandId: the referenced brand's id and name. -/
structure BrandRef where
  id : Nat
  name : String
deriving Repr, DecidableEq

/-- A Business with its brandId populated to the referenced brand's name,
as produced by .populate on the business queries. -/
structure PopulatedBusiness where
  business : Business
  brandRef : Option BrandRef
deriving Repr, DecidableEq

/-- Resolve populate brandId name for one business: none when brandId is
null or references no brand document. -/
def populateBrandRef (s : Store) (b : Business) : Option BrandRef :=
  b.brandId.bind fun bid =>
    (s.brands.find? (fun br => br.id == bid)).map fun br =>
      { id := br.id, name := br.name }

/-- The hierarchy payload of GET /api/organizations/:orgId/hierarchy. -/
structure Hierarchy where
  organization : Organization
  brands : List Brand
  businesses : List PopulatedBusiness
  franchises : List Franchise
deriving Repr, DecidableEq

/-- GET /api/organizations/:orgId/hierarchy — findById on the organization
(404 on absence), then the active brands of the organization, the active
businesses of the organization with brandId populated, and the active
franchises whose businessId lies in the id set of those businesses. -/
def getHierarchy (s : Store) (orgId : Nat) : ApiResponse Hierarchy :=
  match s.organizations.find? (fun o => o.id == orgId) with
  | none => { status := 404, success := false, error := some "Organization not found", data := none }
  | some org =>
    let brands := s.brands.filter fun b => b.organizationId == orgId && b.isActive
    let businesses := s.businesses.filter fun b => b.organizationId == orgId && b.isActive
    let populated := businesses.map fun b => PopulatedBusiness.mk b (populateBrandRef s b)
    let ids := businesses.map fun b => b.id
    let franchises := s.franchises.filter fun f => ids.contains f.businessId && f.isActive
    { status := 200, success := true, error := none,
      data := some { organization := org, brands := brands,
                     businesses := populated, franchises := franchises } }

/-! ### List handlers. MongoDB applies sort before skip and limit, whatever
the chaining order of the query builder, so each list is modelled as
filter, then sort, then drop offset, then take limit. -/

/-- GET /api/organizations — optional isActive filter, sort createdAt
descending, pagination (defaults limit 50, offset 0 at the HTTP layer). -/
def listOrganizations (s : Store) (isActiveQ : Option Bool) (limit offset : Nat) :
    List Organization :=
  let filtered := s.organizations.filter fun o =>
    match isActiveQ with
    | none => true
    | some b => o.isActive == b
  ((filtered.mergeSort fun a b => decide (b.createdAt ≤ a.createdAt)).drop offset).take limit

/-- GET /api/organizations/:orgId/brands — always filters isActive true,
sorts name ascending, no pagination. -/
def listBrandsByOrganization (s : Store) (orgId : Nat) : List Brand :=
  (s.brands.filter fun b => b.organizationId == orgId && b.isActive).mergeSort
    fun a b => jsStrLe a.name b.name

/-- GET /api/organizations/:orgId/businesses — filter by organizationId,
optionally by brandId (only when the query value is truthy) and isActive;
brandId populated; sort createdAt descending; pagination. -/
def listBusinessesByOrganization (s : Store) (orgId : Nat) (brandIdQ : Option Nat)
    (isActiveQ : Option Bool) (limit offset : Nat) : List PopulatedBusiness :=
  let filtered := s.businesses.filter fun b =>
    b.organizationId == orgId &&
    (match brandIdQ with
     | none => true
     | some q => b.brandId == some q) &&
    (match isActiveQ with
     | none => true
     | some q => b.isActive == q)
  ((((filtered.mergeSort fun a b => decide (b.createdAt ≤ a.createdAt)).drop offset).take
      limit).map fun b => PopulatedBusiness.mk b (populateBrandRef s b))

/-- GET /api/businesses/:businessId/franchises — filter by businessId and
optionally isActive, sort name ascending, pagination. The managerId
populate against the external User collection is not modelled. -/
def listFranchisesByBusiness (s : Store) (businessId : Nat) (isActiveQ : Option Bool)
    (limit offset : Nat) : List Franchise :=
  let filtered := s.franchises.filter fun f =>
    f.businessId == businessId &&
    (match isActiveQ with
     | none => true
     | some q => f.isActive == q)
  ((filtered.mergeSort fun a b => jsStrLe a.name b.name).drop offset).take limit

/-! ### Create handlers. Each POST route constructs the document from the
request body (new Model(req.body); save()), letting mongoose apply schema
setters (trim), defaults and save-time validation (required, which for a
string also rejects the empty string and for an array the empty array;
maxlength; enum); any thrown error is caught and answered with status 500
and a generic message. None of the child creates looks up the referenced
parent document. -/

/-- Whitespace as the schemas' trim setter strips it. -/
def isSchemaSpace (c : Char) : Bool :=
  c == ' ' || c == '\t' || c == '\n' || c == '\r'

/-- The mongoose trim setter on a string path: strip leading and trailing
whitespace before validation and storage. -/
def trimValue (s : String) : String :=
  String.mk (((s.data.dropWhile isSchemaSpace).reverse.dropWhile isSchemaSpace).reverse)

/-- Request body of POST /api/organizations; a none field is absent. -/
structure OrgContactInput where
  email : Option String
  phone : Option String
  address : PostalAddress
deriving Repr, DecidableEq

/-- Request body of POST /api/organizations. -/
structure OrganizationInput where
  name : Option String
  description : Option String
  domain : Option String
  logo : Option String
  settings : Option OrgSettings
  contact : Option OrgContactInput
  subscription : Option OrgSubscription
  limits : Option OrgLimits
  isActive : Option Bool
deriving Repr, DecidableEq

/-- Document construction plus save-time validation for organizationSchema:
name (required, trim, maxlength 100 — required rejects a string empty after
trimming) and contact.email (required, so also non-empty) are the validated
paths; defaults fill the rest; timestamps are set from the request's clock
reading. -/
def buildOrganization (p : OrganizationInput) (newId now : Nat) :
    Except String Organization :=
  match p.name with
  | none => .error "Organization validation failed: name is required"
  | some nm =>
    if trimValue nm = "" then
      .error "Organization validation failed: name is required"
    else if 100 < (trimValue nm).data.length then
      .error "Organization validation failed: name is longer than the maximum allowed length (100)"
    else
      match p.contact with
      | none => .error "Organization validation failed: contact.email is required"
      | some c =>
        match c.email with
        | none => .error "Organization validation failed: contact.email is required"
        | some em =>
          if em = "" then
            .error "Organization validation failed: contact.email is required"
          else
            .ok { id := newId, name := trimValue nm, description := p.description,
                  domain := p.domain, logo := p.logo,
                  settings := p.settings.getD defaultOrgSettings,
                  contact := { email := em, phone := c.phone, address := c.address },
                  subscription := p.subscription.getD defaultOrgSubscription,
                  limits := p.limits.getD defaultOrgLimits,
                  isActive := p.isActive.getD true,
                  createdAt := now, updatedAt := now }

/-- POST /api/organizations — on validation failure the catch block answers
500 with a generic message and the store is unchanged; on success 201 with
the stored document. -/
def createOrganization (s : Store) (p : OrganizationInput) (newId now : Nat) :
    Store × ApiResponse Organization :=
  match buildOrganization p newId now with
  | .error _ =>
    (s, { status := 500, success := false,
          error := some "Failed to create organization", data := none })
  | .ok org =>
    ({ s with organizations := s.organizations ++ [org] },
     { status := 201, success := true, error := none, data := some org })

/-- Request body of POST /api/brands. -/
structure BrandInput where
  name : Option String
  description : Option String
  organizationId : Option Nat
  logo : Option String
  brandGuidelines : Option BrandGuidelines
  settings : Option BrandSettings
  contact : Option BrandContact
  limits : Option BrandLimits
  isActive : Option Bool
deriving Repr, DecidableEq

/-- Document construction plus save-time validation for brandSchema: name
(required, trim, maxlength 100 — required rejects a string empty after
trimming) and organizationId are the validated paths. The organizationId
value is stored as given; no lookup of the referenced Organization happens
anywhere. -/
def buildBrand (p : BrandInput) (newId now : Nat) : Except String Brand :=
  match p.name with
  | none => .error "Brand validation failed: name is required"
  | some nm =>
    if trimValue nm = "" then
      .error "Brand validation failed: name is required"
    else if 100 < (trimValue nm).data.length then
      .error "Brand validation failed: name is longer than the maximum allowed length (100)"
    else
    match p.organizationId with
    | none => .error "Brand validation failed: organizationId is required"
    | some oid =>
      .ok { id := newId, name := trimValue nm, description := p.description,
            organizationId := oid, logo := p.logo,
            brandGuidelines := p.brandGuidelines.getD
              { primaryColor := none, secondaryColor := none,
                fontFamily := none, logoVariations := [] },
            settings := p.settings.getD defaultBrandSettings,
            contact := p.contact.getD
              { email := none, phone := none,
                address := { street := none, city := none, state := none,
                             country := none, zipCode := none } },
            limits := p.limits.getD defaultBrandLimits,
            isActive := p.isActive.getD true,
            createdAt := now, updatedAt := now }

/-- POST /api/brands — 500 with a generic message on validation failure,
201 with the stored document otherwise; the parent organization is never
looked up. -/
def createBrand (s : Store) (p : BrandInput) (newId now : Nat) :
    Store × ApiResponse Brand :=
  match buildBrand p newId now with
  | .error _ =>
    (s, { status := 500, success := false,
          error := some "Failed to create brand", data := none })
  | .ok br =>
    ({ s with brands := s.brands ++ [br] },
     { status := 201, success := true, error := none, data := some br })

/-- Request body of POST /api/businesses. -/
structure BusinessContactInput where
  email : Option String
  phone : Option String
  website : Option String
  address : Option BusinessAddress
deriving Repr, DecidableEq

/-- Request body of POST /api/businesses. -/
structure BusinessInput where
  name : Option String
  description : Option String
  organizationId : Option Nat
  brandId : Option Nat
  ownerId : Option Nat
  industry : Option String
  businessType : Option String
  contact : Option BusinessContactInput
  settings : Option BusinessSettings
  subscription : Option BusinessSubscription
  isActive : Option Bool
deriving Repr, DecidableEq

/-- Document construction plus save-time validation for businessSchema:
name, organizationId, ownerId, industry (constrained to the enumerated set)
and contact.email are required; businessType defaults and is constrained to
its enumerated set. The organizationId value is stored as given. -/
def buildBusiness (p : BusinessInput) (newId now : Nat) : Except String Business :=
  match p.name with
  | none => .error "Business validation failed: name is required"
  | some nm =>
    if trimValue nm = "" then
      .error "Business validation failed: name is required"
    else if 100 < (trimValue nm).data.length then
      .error "Business validation failed: name is longer than the maximum allowed length (100)"
    else
    match p.organizationId with
    | none => .error "Business validation failed: organizationId is required"
    | some oid =>
      match p.ownerId with
      | none => .error "Business validation failed: ownerId is required"
      | some owner =>
        match p.industry with
        | none => .error "Business validation failed: industry is required"
        | some ind =>
          if !(industryEnum.contains ind) then
            .error "Business validation failed: industry is not a valid enum value"
          else
            match p.contact with
            | none => .error "Business validation failed: contact.email is required"
            | some c =>
              match c.email with
              | none => .error "Business validation failed: contact.email is required"
              | some em =>
                if em = "" then
                  .error "Business validation failed: contact.email is required"
                else if !(businessTypeEnum.contains (p.businessType.getD "single_location")) then
                  .error "Business validation failed: businessType is not a valid enum value"
                else
                  .ok { id := newId, name := trimValue nm, description := p.description,
                        organizationId := oid, brandId := p.brandId,
                        ownerId := owner, industry := ind,
                        businessType := p.businessType.getD "single_location",
                        contact := { email := em, phone := c.phone,
                                     website := c.website,
                                     address := c.address.getD
                                       { street := none, city := none,
                                         state := none, country := none,
                                         zipCode := none,
                                         coordinates := { pointType := "Point",
                                                          coordinates := [0, 0] } } },
                        settings := p.settings.getD defaultBusinessSettings,
                        subscription := p.subscription.getD defaultBusinessSubscription,
                        isActive := p.isActive.getD true,
                        createdAt := now, updatedAt := now }

/-- POST /api/businesses — 500 on failure, 201 on success; the parent
organization (and optional brand) are never looked up. -/
def createBusiness (s : Store) (p : BusinessInput) (newId now : Nat) :
    Store × ApiResponse Business :=
  match buildBusiness p newId now with
  | .error _ =>
    (s, { status := 500, success := false,
          error := some "Failed to create business", data := none })
  | .ok b =>
    ({ s with businesses := s.businesses ++ [b] },
     { status := 201, success := true, error := none, data := some b })

/-- Request body address block of POST /api/franchises. -/
structure FranchiseAddressInput where
  street : Option String
  city : Option String
  state : Option String
  country : Option String
  zipCode : Option String
  coordinates : Option (List Int)
deriving Repr, DecidableEq

/-- Request body of POST /api/franchises. -/
structure FranchiseInput where
  name : Option String
  businessId : Option Nat
  managerId : Option Nat
  address : Option FranchiseAddressInput
  contact : Option FranchiseContact
  settings : Option FranchiseSettings
  capacity : Option FranchiseCapacity
  isActive : Option Bool
deriving Repr, DecidableEq

/-- The schema default of franchiseSchema settings: timezone UTC, every day
open-ended (no hours set, closed false), every feature false. -/
def defaultFranchiseSettings : FranchiseSettings :=
  { timezone := "UTC",
    operatingHours :=
      { monday := { openTime := none, closeTime := none, closed := false },
        tuesday := { openTime := none, closeTime := none, closed := false },
        wednesday := { openTime := none, closeTime := none, closed := false },
        thursday := { openTime := none, closeTime := none, closed := false },
        friday := { openTime := none, closeTime := none, closed := false },
        saturday := { openTime := none, closeTime := none, closed := false },
        sunday := { openTime := none, closeTime := none, closed := false } },
    features := { wifi := false, parking := false, delivery := false,
                  takeout := false, outdoorSeating := false } }

/-- Document construction plus save-time validation for franchiseSchema:
name (required, trim, maxlength 100 — required rejects a string empty after
trimming), businessId and the full address are required: street, city,
state, country and zipCode are required strings (so also non-empty, though
untrimmed) and coordinates.coordinates is a required number array (mongoose
treats the empty array as missing for required). The businessId value is
stored as given; no lookup of the referenced Business happens anywhere. -/
def buildFranchise (p : FranchiseInput) (newId now : Nat) : Except String Franchise :=
  match p.name with
  | none => .error "Franchise validation failed: name is required"
  | some nm =>
    if trimValue nm = "" then
      .error "Franchise validation failed: name is required"
    else if 100 < (trimValue nm).data.length then
      .error "Franchise validation failed: name is longer than the maximum allowed length (100)"
    else
    match p.businessId with
    | none => .error "Franchise validation failed: businessId is required"
    | some bid =>
      match p.address with
      | none => .error "Franchise validation failed: address is required"
      | some a =>
        match a.street, a.city, a.state, a.country, a.zipCode, a.coordinates with
        | some st, some ci, some sta, some co, some zi, some coords =>
          if st = "" || ci = "" || sta = "" || co = "" || zi = "" then
            .error "Franchise validation failed: address fields are required"
          else if coords = [] then
            .error "Franchise validation failed: address.coordinates.coordinates is required"
          else
            .ok { id := newId, name := trimValue nm, businessId := bid,
                  managerId := p.managerId,
                  address := { street := st, city := ci, state := sta,
                               country := co, zipCode := zi,
                               coordinates := { pointType := "Point",
                                                coordinates := coords } },
                  contact := p.contact.getD
                    { phone := none, email := none, website := none },
                  settings := p.settings.getD defaultFranchiseSettings,
                  capacity := p.capacity.getD
                    { maxCustomers := 50, seatingCapacity := 30 },
                  isActive := p.isActive.getD true,
                  createdAt := now, updatedAt := now }
        | _, _, _, _, _, _ =>
          .error "Franchise validation failed: address fields are required"

/-- POST /api/franchises — 500 on failure, 201 on success; the parent
business is never looked up. -/
def createFranchise (s : Store) (p : FranchiseInput) (newId now : Nat) :
    Store × ApiResponse Franchise :=
  match buildFranchise p newId now with
  | .error _ =>
    (s, { status := 500, success := false,
          error := some "Failed to create franchise", data := none })
  | .ok f =>
    ({ s with franchises := s.franchises ++ [f] },
     { status := 201, success := true, error := none, data := some f })

/-! ### Update handlers. Each PUT route calls findByIdAndUpdate(id, req.body,
new true). Mongoose casts the plain body to a set of its present top-level
keys, so absent keys keep their stored values; because the schemas enable
timestamps, the operation also refreshes updatedAt (createdAt is untouched).
A payload field of type Option (Option _) distinguishes an absent key (outer
none) from an explicit null (some none). -/

/-- Replace the first list element satisfying the predicate. -/
def replaceFirst (p : α → Bool) (a : α) : List α → List α
  | [] => []
  | x :: xs => if p x then a :: xs else x :: replaceFirst p a xs

/-- Request body of PUT /api/organizations/:id; a none field is an absent key. -/
structure OrganizationUpdate where
  name : Option String
  description : Option (Option String)
  domain : Option (Option String)
  logo : Option (Option String)
  settings : Option OrgSettings
  contact : Option OrgContact
  subscription : Option OrgSubscription
  limits : Option OrgLimits
  isActive : Option Bool
deriving Repr, DecidableEq

/-- Merge of an update body into a stored Organization: each present
top-level key overwrites, each absent key is kept, and updatedAt is set to
the request's clock reading by the timestamps option. -/
def applyOrganizationUpdate (o : Organization) (u : OrganizationUpdate) (now : Nat) :
    Organization :=
  { o with
    name := u.name.getD o.name,
    description := u.description.getD o.description,
    domain := u.domain.getD o.domain,
    logo := u.logo.getD o.logo,
    settings := u.settings.getD o.settings,
    contact := u.contact.getD o.contact,
    subscription := u.subscription.getD o.subscription,
    limits := u.limits.getD o.limits,
    isActive := u.isActive.getD o.isActive,
    updatedAt := now }

/-- PUT /api/organizations/:id — 404 when the id resolves to no document,
otherwise the merged document is stored and answered with 200. -/
def updateOrganization (s : Store) (id : Nat) (u : OrganizationUpdate) (now : Nat) :
    Store × ApiResponse Organization :=
  match s.organizations.find? (fun o => o.id == id) with
  | none =>
    (s, { status := 404, success := false,
          error := some "Organization not found", data := none })
  | some o =>
    let o2 := applyOrganizationUpdate o u now
    ({ s with organizations := replaceFirst (fun x => x.id == id) o2 s.organizations },
     { status := 200, success := true, error := none, data := some o2 })

/-- Request body of PUT /api/businesses/:id. -/
structure BusinessUpdate where
  name : Option String
  description : Option (Option String)
  organizationId : Option Nat
  brandId : Option (Option Nat)
  ownerId : Option Nat
  industry : Option String
  businessType : Option String
  contact : Option BusinessContact
  settings : Option BusinessSettings
  subscription : Option BusinessSubscription
  isActive : Option Bool
deriving Repr, DecidableEq

/-- Merge of an update body into a stored Business (see
applyOrganizationUpdate). -/
def applyBusinessUpdate (b : Business) (u : BusinessUpdate) (now : Nat) : Business :=
  { b with
    name := u.name.getD b.name,
    description := u.description.getD b.description,
    organizationId := u.organizationId.getD b.organizationId,
    brandId := u.brandId.getD b.brandId,
    ownerId := u.ownerId.getD b.ownerId,
    industry := u.industry.getD b.industry,
    businessType := u.businessType.getD b.businessType,
    contact := u.contact.getD b.contact,
    settings := u.settings.getD b.settings,
    subscription := u.subscription.getD b.subscription,
    isActive := u.isActive.getD b.isActive,
    updatedAt := now }

/-- PUT /api/businesses/:id. -/
def updateBusiness (s : Store) (id : Nat) (u : BusinessUpdate) (now : Nat) :
    Store × ApiResponse Business :=
  match s.businesses.find? (fun b => b.id == id) with
  | none =>
    (s, { status := 404, success := false,
          error := some "Business not found", data := none })
  | some b =>
    let b2 := applyBusinessUpdate b u now
    ({ s with businesses := replaceFirst (fun x => x.id == id) b2 s.businesses },
     { status := 200, success := true, error := none, data := some b2 })

/-- Request body of PUT /api/franchises/:id. -/
structure FranchiseUpdate where
  name : Option String
  businessId : Option Nat
  managerId : Option (Option Nat)
  address : Option FranchiseAddress
  contact : Option FranchiseContact
  settings : Option FranchiseSettings
  capacity : Option FranchiseCapacity
  isActive : Option Bool
deriving Repr, DecidableEq

/-- Merge of an update body into a stored Franchise (see
applyOrganizationUpdate). -/
def applyFranchiseUpdate (f : Franchise) (u : FranchiseUpdate) (now : Nat) : Franchise :=
  { f with
    name := u.name.getD f.name,
    businessId := u.businessId.getD f.businessId,
    managerId := u.managerId.getD f.managerId,
    address := u.address.getD f.address,
    contact := u.contact.getD f.contact,
    settings := u.settings.getD f.settings,
    capacity := u.capacity.getD f.capacity,
    isActive := u.isActive.getD f.isActive,
    updatedAt := now }

/-- PUT /api/franchises/:id. -/
def updateFranchise (s : Store) (id : Nat) (u : FranchiseUpdate) (now : Nat) :
    Store × ApiResponse Franchise :=
  match s.franchises.find? (fun f => f.id == id) with
  | none =>
    (s, { status := 404, success := false,
          error := some "Franchise not found", data := none })
  | some f =>
    let f2 := applyFranchiseUpdate f u now
    ({ s with franchises := replaceFirst (fun x => x.id == id) f2 s.franchises },
     { status := 200, success := true, error := none, data := some f2 })

/-! ### Route table -/

/-- HTTP methods the app registers handlers for. -/
inductive Method where
  | get | post | put
deriving Repr, DecidableEq

/-- The route table of the Express app, in registration order, matching a
method and a path (split into segments) to the name of the handler above.
A wildcard segment stands for a path parameter. Requests matching no
registered route fall through to the catch-all handler (fallbackResponse). -/
def matchRoute (m : Method) (path : List String) : Option String :=
  match m, path with
  | .get, ["health"] => some "health"
  | .get, ["ready"] => some "ready"
  | .get, ["api", "organizations"] => some "listOrganizations"
  | .get, ["api", "organizations", _] => some "getOrganizationById"
  | .post, ["api", "organizations"] => some "createOrganization"
  | .put, ["api", "organizations", _] => some "updateOrganization"
  | .get, ["api", "organizations", _, "brands"] => some "listBrandsByOrganization"
  | .post, ["api", "brands"] => some "createBrand"
  | .get, ["api", "organizations", _, "businesses"] => some "listBusinessesByOrganization"
  | .get, ["api", "businesses", _] => some "getBusinessById"
  | .post, ["api", "businesses"] => some "createBusiness"
  | .put, ["api", "businesses", _] => some "updateBusiness"
  | .get, ["api", "businesses", _, "franchises"] => some "listFranchisesByBusiness"
  | .get, ["api", "franchises", _] => some "getFranchiseById"
  | .post, ["api", "franchises"] => some "createFranchise"
  | .put, ["api", "franchises", _] => some "updateFranchise"
  | .get, ["api", "organizations", _, "hierarchy"] => some "getHierarchy"
  | _, _ => none

/-- The catch-all handler app.use star: 404 Route not found. -/
def fallbackResponse : ApiResponse Unit :=
  { status := 404, success := false, error := some "Route not found", data := none }

/-! ### Concrete sample data used by the counterexamples and witnesses -/

/-- A postal address with every field absent. -/
def emptyPostalAddress : PostalAddress :=
  { street := none, city := none, state := none, country := none, zipCode := none }

/-- An organization document with schema defaults, parameterised by id,
creation instant, name and isActive. -/
def mkOrganization (id cAt : Nat) (nm : String) (act : Bool) : Organization :=
  { id := id, name := nm, description := none, domain := none, logo := none,
    settings := defaultOrgSettings,
    contact := { email := "org@example.com", phone := none, address := emptyPostalAddress },
    subscription := defaultOrgSubscription, limits := defaultOrgLimits,
    isActive := act, createdAt := cAt, updatedAt := cAt }

/-- A brand document with schema defaults. -/
def mkBrand (id orgId cAt : Nat) (nm : String) (act : Bool) : Brand :=
  { id := id, name := nm, description := none, organizationId := orgId, logo := none,
    brandGuidelines := { primaryColor := none, secondaryColor := none,
                         fontFamily := none, logoVariations := [] },
    settings := defaultBrandSettings,
    contact := { email := none, phone := none, address := emptyPostalAddress },
    limits := defaultBrandLimits, isActive := act, createdAt := cAt, updatedAt := cAt }

/-- A business document with schema defaults, parameterised also by the
optional brand reference and the subscription limits. -/
def mkBusiness (id orgId : Nat) (brand : Option Nat) (cAt : Nat) (nm : String)
    (act : Bool) (lims : BusinessLimits) : Business :=
  { id := id, name := nm, description := none, organizationId := orgId,
    brandId := brand, ownerId := 7, industry := "restaurant",
    businessType := "single_location",
    contact := { email := "biz@example.com", phone := none, website := none,
                 address := { street := none, city := none, state := none,
                              country := none, zipCode := none,
                              coordinates := { pointType := "Point",
                                               coordinates := [0, 0] } } },
    settings := defaultBusinessSettings,
    subscription := { defaultBusinessSubscription with limits := lims },
    isActive := act, createdAt := cAt, updatedAt := cAt }

/-- Operating hours with Monday 09:00 to 17:00 and every other day bare. -/
def mondayNineToFive : OperatingHours :=
  { monday := { openTime := some "09:00", closeTime := some "17:00", closed := false },
    tuesday := { openTime := none, closeTime := none, closed := false },
    wednesday := { openTime := none, closeTime := none, closed := false },
    thursday := { openTime := none, closeTime := none, closed := false },
    friday := { openTime := none, closeTime := none, closed := false },
    saturday := { openTime := none, closeTime := none, closed := false },
    sunday := { openTime := none, closeTime := none, closed := false } }

/-- A franchise document with a complete address, parameterised by the
operating hours. -/
def mkFranchise (id bizId cAt : Nat) (nm : String) (act : Bool)
    (oh : OperatingHours) : Franchise :=
  { id := id, name := nm, businessId := bizId, managerId := none,
    address := { street := "1 Main St", city := "Metropolis", state := "NY",
                 country := "US", zipCode := "10001",
                 coordinates := { pointType := "Point", coordinates := [0, 0] } },
    contact := { phone := none, email := none, website := none },
    settings := { timezone := "UTC", operatingHours := oh,
                  features := { wifi := false, parking := false, delivery := false,
                                takeout := false, outdoorSeating := false } },
    capacity := { maxCustomers := 50, seatingCapacity := 30 },
    isActive := act, createdAt := cAt, updatedAt := cAt }

/-- Sample organization id 1, created at 100, active. -/
def orgOne : Organization := mkOrganization 1 100 "Acme Group" true

/-- Sample organization id 2, created at 200, soft-deleted. -/
def orgTwo : Organization := mkOrganization 2 200 "Dormant Holdings" false

/-- Sample brand id 11 under organization 1, active. -/
def brandEleven : Brand := mkBrand 11 1 110 "Acme Fresh" true

/-- Sample brand id 12 under organization 1, soft-deleted. -/
def brandTwelve : Brand := mkBrand 12 1 120 "Acme Retired" false

/-- Sample business id 21 under organization 1 and brand 11, active. -/
def bizTwentyOne : Business := mkBusiness 21 1 (some 11) 300 "Downtown" true defaultBusinessLimits

/-- Sample business id 22 under organization 1 with no brand, active. -/
def bizTwentyTwo : Business := mkBusiness 22 1 none 250 "Uptown" true defaultBusinessLimits

/-- Sample business id 23 under organization 1, soft-deleted. -/
def bizTwentyThree : Business := mkBusiness 23 1 none 260 "Closed Down" false defaultBusinessLimits

/-- Sample business id 40 under organization 1 with a franchise limit of 3. -/
def bizLim : Business :=
  mkBusiness 40 1 none 270 "Capped" true
    { defaultBusinessLimits with franchises := some 3 }

/-- Sample franchise id 31 under business 21, active, Monday 09:00-17:00. -/
def frThirtyOne : Franchise := mkFranchise 31 21 310 "Central" true mondayNineToFive

/-- Sample franchise id 32 under business 22, active. -/
def frThirtyTwo : Franchise := mkFranchise 32 22 320 "Annex" true mondayNineToFive

/-- Sample franchise id 33 under business 21, soft-deleted. -/
def frThirtyThree : Franchise := mkFranchise 33 21 330 "Mothballed" false mondayNineToFive

/-- Active franchise id 41 under the capped business 40. -/
def frFortyOne : Franchise := mkFranchise 41 40 410 "Cap A" true mondayNineToFive

/-- Active franchise id 42 under the capped business 40. -/
def frFortyTwo : Franchise := mkFranchise 42 40 420 "Cap B" true mondayNineToFive

/-- Soft-deleted franchise id 43 under the capped business 40. -/
def frFortyThree : Franchise := mkFranchise 43 40 430 "Cap C" false mondayNineToFive

/-- The sample store used across the concrete theorems. -/
def sampleStore : Store :=
  { organizations := [orgOne, orgTwo],
    brands := [brandEleven, brandTwelve],
    businesses := [bizTwentyOne, bizTwentyTwo, bizTwentyThree, bizLim],
    franchises := [frThirtyOne, frThirtyTwo, frThirtyThree,
                   frFortyOne, frFortyTwo, frFortyThree],
    staffRecords := [{ id := 51, businessId := 21, franchiseId := some 31, isActive := true }] }

/-- A store with no documents at all. -/
def emptyStore : Store :=
  { organizations := [], brands := [], businesses := [], franchises := [],
    staffRecords := [] }

/-! ### Theorems about the claims -/

/-- C3: the claim says isOpen consults the weekday entry of
settings.operatingHours and compares the HH:MM time-of-day against the
inclusive open-close window, with the closed flag forcing false. The method
as written never does any of this: its day key (even read charitably, see
dayKey) is a three-letter abbreviation while the operatingHours keys are
full weekday names, so the settings lookup yields undefined and the closed
dereference throws a TypeError on every single call — in particular at the
claim's own example, Monday 12:00 against Monday 09:00-17:00 open. -/
theorem isOpen_always_throws :
    (∀ (f : Franchise) (d : Instant),
       Franchise.isOpen f d = Except.error JsError.typeError) ∧
    Franchise.isOpen frThirtyOne { weekday := Weekday.monday, timeOfDay := "12:00" } =
      Except.error JsError.typeError := by
  refine ⟨?_, rfl⟩
  intro f d
  cases d with
  | mk w t => cases w <;> rfl

/-- C4: a create with a missing required field (here an entirely empty
organization payload, so both name and contact.email are absent) raises a
ValidationError, stores nothing, and is answered with the
success-false-plus-error envelope — but with HTTP status 500 and a generic
message, not the status 400 the claim requires: the POST handler has a
single catch-all that maps every error, validation included, to 500. -/
theorem createOrganization_validation_gives_500 :
    buildOrganization
        { name := none, description := none, domain := none, logo := none,
          settings := none, contact := none, subscription := none,
          limits := none, isActive := none } 9 4 =
      Except.error "Organization validation failed: name is required" ∧
    (createOrganization sampleStore
        { name := none, description := none, domain := none, logo := none,
          settings := none, contact := none, subscription := none,
          limits := none, isActive := none } 9 4).1 = sampleStore ∧
    (createOrganization sampleStore
        { name := none, description := none, domain := none, logo := none,
          settings := none, contact := none, subscription := none,
          limits := none, isActive := none } 9 4).2 =
      { status := 500, success := false,
        error := some "Failed to create organization", data := none } :=
  ⟨rfl, rfl, rfl⟩

/-- C2 counterexample: the claim ties checkLimit to the count of active
children, but the count virtuals carry no isActive filter. Business 40 has a
franchise limit of 3 and exactly 2 active franchises (41 and 42; franchise
43 is soft-deleted), so by the claim checkLimit franchises should be true,
yet the method counts all 3 children and returns false. -/
theorem checkLimit_sees_inactive_children :
    bizLim.subscription.limits.franchises = some 3 ∧
    activeFranchiseCountSpec sampleStore bizLim = 2 ∧
    franchiseCountOf sampleStore bizLim = 3 ∧
    Business.checkLimit sampleStore bizLim "franchises" = false :=
  ⟨rfl, rfl, rfl, rfl⟩

/-- C2 amended: for every supported limit type, checkLimit is true exactly
when the configured limit is the null sentinel or the derived count of ALL
children of that type — active and soft-deleted alike, since the count
virtuals have no isActive filter — is strictly below the limit. -/
theorem checkLimit_spec (s : Store) (o : Organization) (br : Brand) (b : Business) :
    (Organization.checkLimit s o "brands" = true ↔
      o.limits.brands = none ∨
      ∃ n, o.limits.brands = some n ∧ (brandCountOf s o : Int) < n) ∧
    (Organization.checkLimit s o "businesses" = true ↔
      o.limits.businesses = none ∨
      ∃ n, o.limits.businesses = some n ∧ (businessCountOfOrg s o : Int) < n) ∧
    (Brand.checkLimit s br "businesses" = true ↔
      br.limits.businesses = none ∨
      ∃ n, br.limits.businesses = some n ∧ (businessCountOfBrand s br : Int) < n) ∧
    (Business.checkLimit s b "franchises" = true ↔
      b.subscription.limits.franchises = none ∨
      ∃ n, b.subscription.limits.franchises = some n ∧ (franchiseCountOf s b : Int) < n) ∧
    (Business.checkLimit s b "staff" = true ↔
      b.subscription.limits.staff = none ∨
      ∃ n, b.subscription.limits.staff = some n ∧ (staffCountOf s b : Int) < n) := by
  refine ⟨?_, ?_, ?_, ?_, ?_⟩
  · cases h : o.limits.brands with
    | none => simp [Organization.checkLimit, orgLimitOf, h]
    | some n => simp [Organization.checkLimit, orgLimitOf, jsCountLt, h]
  · cases h : o.limits.businesses with
    | none => simp [Organization.checkLimit, orgLimitOf, h]
    | some n => simp [Organization.checkLimit, orgLimitOf, jsCountLt, h]
  · cases h : br.limits.businesses with
    | none => simp [Brand.checkLimit, brandLimitOf, h]
    | some n => simp [Brand.checkLimit, brandLimitOf, jsCountLt, h]
  · cases h : b.subscription.limits.franchises with
    | none => simp [Business.checkLimit, businessLimitOf, h]
    | some n => simp [Business.checkLimit, businessLimitOf, jsCountLt, h]
  · cases h : b.subscription.limits.staff with
    | none => simp [Business.checkLimit, businessLimitOf, h]
    | some n => simp [Business.checkLimit, businessLimitOf, jsCountLt, h]

/-- C5 counterexample: the claim requires a child create whose parent
reference resolves to no record to fail and store nothing. Creating a brand
whose organizationId is 999 against the empty store (no organization exists
at all) succeeds with 201 and stores the brand with its dangling parent
reference: neither POST handler nor schema ever looks the parent up. -/
theorem createBrand_ignores_missing_parent :
    emptyStore.organizations = [] ∧
    (createBrand emptyStore
        { name := some "Ghost", description := none, organizationId := some 999,
          logo := none, brandGuidelines := none, settings := none,
          contact := none, limits := none, isActive := none } 77 5).2.status = 201 ∧
    ((createBrand emptyStore
        { name := some "Ghost", description := none, organizationId := some 999,
          logo := none, brandGuidelines := none, settings := none,
          contact := none, limits := none, isActive := none } 77 5).1.brands.map
      fun b => b.organizationId) = [999] :=
  ⟨rfl, rfl, rfl⟩

/-- Helper: a successfully built brand stores the payload's organizationId
exactly as supplied. -/
theorem buildBrand_parentRef (p : BrandInput) (newId now : Nat) (br : Brand)
    (h : buildBrand p newId now = .ok br) :
    some br.organizationId = p.organizationId := by
  unfold buildBrand at h
  repeat' split at h
  all_goals first
    | exact Except.noConfusion h
    | (injection h with h2; subst h2; simp_all)

/-- Helper: a successfully built business stores the payload's
organizationId exactly as supplied. -/
theorem buildBusiness_parentRef (p : BusinessInput) (newId now : Nat) (b : Business)
    (h : buildBusiness p newId now = .ok b) :
    some b.organizationId = p.organizationId := by
  unfold buildBusiness at h
  repeat' split at h
  all_goals first
    | exact Except.noConfusion h
    | (injection h with h2; subst h2; simp_all)

/-- Helper: a successfully built franchise stores the payload's businessId
exactly as supplied. -/
theorem buildFranchise_parentRef (p : FranchiseInput) (newId now : Nat) (f : Franchise)
    (h : buildFranchise p newId now = .ok f) :
    some f.businessId = p.businessId := by
  unfold buildFranchise at h
  repeat' split at h
  all_goals first
    | exact Except.noConfusion h
    | (injection h with h2; subst h2; simp_all)

/-- C5 amended: no child create ever looks up the referenced parent — the
response of each create route is exactly what it would be against the empty
store, where no parent exists at all, and on success the child is stored
with the payload's parent reference kept as given (Brand and Business:
organizationId; Franchise: businessId), dangling or not. -/
theorem createChild_no_parent_lookup :
    (∀ (s : Store) (p : BrandInput) (newId now : Nat),
       (createBrand s p newId now).2 = (createBrand emptyStore p newId now).2 ∧
       ∀ br, (createBrand s p newId now).2.data = some br →
         (createBrand s p newId now).1.brands = s.brands ++ [br] ∧
         some br.organizationId = p.organizationId) ∧
    (∀ (s : Store) (p : BusinessInput) (newId now : Nat),
       (createBusiness s p newId now).2 = (createBusiness emptyStore p newId now).2 ∧
       ∀ b, (createBusiness s p newId now).2.data = some b →
         (createBusiness s p newId now).1.businesses = s.businesses ++ [b] ∧
         some b.organizationId = p.organizationId) ∧
    (∀ (s : Store) (p : FranchiseInput) (newId now : Nat),
       (createFranchise s p newId now).2 = (createFranchise emptyStore p newId now).2 ∧
       ∀ f, (createFranchise s p newId now).2.data = some f →
         (createFranchise s p newId now).1.franchises = s.franchises ++ [f] ∧
         some f.businessId = p.businessId) := by
  refine ⟨?_, ?_, ?_⟩
  · intro s p newId now
    cases hb : buildBrand p newId now with
    | error e =>
      refine ⟨by simp [createBrand, hb], ?_⟩
      intro br hd
      simp [createBrand, hb] at hd
    | ok br2 =>
      refine ⟨by simp [createBrand, hb], ?_⟩
      intro br hd
      simp only [createBrand, hb, Option.some.injEq] at hd
      obtain rfl := hd
      exact ⟨by simp [createBrand, hb], buildBrand_parentRef p newId now _ hb⟩
  · intro s p newId now
    cases hb : buildBusiness p newId now with
    | error e =>
      refine ⟨by simp [createBusiness, hb], ?_⟩
      intro b hd
      simp [createBusiness, hb] at hd
    | ok b2 =>
      refine ⟨by simp [createBusiness, hb], ?_⟩
      intro b hd
      simp only [createBusiness, hb, Option.some.injEq] at hd
      obtain rfl := hd
      exact ⟨by simp [createBusiness, hb], buildBusiness_parentRef p newId now _ hb⟩
  · intro s p newId now
    cases hb : buildFranchise p newId now with
    | error e =>
      refine ⟨by simp [createFranchise, hb], ?_⟩
      intro f hd
      simp [createFranchise, hb] at hd
    | ok f2 =>
      refine ⟨by simp [createFranchise, hb], ?_⟩
      intro f hd
      simp only [createFranchise, hb, Option.some.injEq] at hd
      obtain rfl := hd
      exact ⟨by simp [createFranchise, hb], buildFranchise_parentRef p newId now _ hb⟩

/-- Brand payload whose parent reference matches no organization. -/
def ghostBrandInput : BrandInput :=
  { name := some "Ghost", description := none, organizationId := some 999,
    logo := none, brandGuidelines := none, settings := none,
    contact := none, limits := none, isActive := none }

/-- The brand stored by creating ghostBrandInput against the empty store. -/
def ghostBrandW : Brand :=
  ((createBrand emptyStore ghostBrandInput 77 5).2.data).getD brandEleven

/-- C5 witness: creating the ghost brand against the empty store — where no
parent can exist — stores it with the dangling organizationId kept as
given, and the response is the same against the populated sample store. -/
theorem createChild_no_parent_lookup_witness :
    (createBrand sampleStore ghostBrandInput 77 5).2 =
      (createBrand emptyStore ghostBrandInput 77 5).2 ∧
    (createBrand emptyStore ghostBrandInput 77 5).1.brands =
      emptyStore.brands ++ [ghostBrandW] ∧
    some ghostBrandW.organizationId = ghostBrandInput.organizationId := by
  obtain ⟨h1, h2⟩ :=
    (createChild_no_parent_lookup.1 emptyStore ghostBrandInput 77 5).2 ghostBrandW rfl
  exact ⟨(createChild_no_parent_lookup.1 sampleStore ghostBrandInput 77 5).1, h1, h2⟩

/-- C10: on every entity the checkLimit switch enforces only its supported
limit types (Organization: brands and businesses; Brand: businesses;
Business: franchises and staff); any other limit type falls through the
default branch and checkLimit returns true, whatever the configured limits
and whatever the child counts. -/
theorem checkLimit_unknown_type (s : Store) (o : Organization) (br : Brand)
    (b : Business) (lt : String) :
    (lt ≠ "brands" → lt ≠ "businesses" → Organization.checkLimit s o lt = true) ∧
    (lt ≠ "businesses" → Brand.checkLimit s br lt = true) ∧
    (lt ≠ "franchises" → lt ≠ "staff" → Business.checkLimit s b lt = true) := by
  refine ⟨?_, ?_, ?_⟩
  · intro h1 h2
    simp only [Organization.checkLimit]
    split <;> rfl
  · intro h1
    simp only [Brand.checkLimit]
    split <;> rfl
  · intro h1 h2
    simp only [Business.checkLimit]
    split <;> rfl

/-- C10 witness: the limit type users is enforced on no entity, so every
checkLimit call with it answers true on the sample store. -/
theorem checkLimit_unknown_type_witness :
    ("users" ≠ "brands" ∧ "users" ≠ "businesses" ∧
     "users" ≠ "franchises" ∧ "users" ≠ "staff") ∧
    Organization.checkLimit sampleStore orgOne "users" = true ∧
    Brand.checkLimit sampleStore brandEleven "users" = true ∧
    Business.checkLimit sampleStore bizLim "users" = true := by
  refine ⟨⟨by decide, by decide, by decide, by decide⟩, ?_, ?_, ?_⟩
  · exact (checkLimit_unknown_type sampleStore orgOne brandEleven bizLim "users").1
      (by decide) (by decide)
  · exact (checkLimit_unknown_type sampleStore orgOne brandEleven bizLim "users").2.1
      (by decide)
  · exact (checkLimit_unknown_type sampleStore orgOne brandEleven bizLim "users").2.2
      (by decide) (by decide)

/-- Helper: sorting, then paging with drop and take, preserves pairwise
ordering by the sort comparator. -/
theorem pairwise_sorted_page (le : α → α → Bool)
    (htrans : ∀ a b c, le a b = true → le b c = true → le a c = true)
    (htotal : ∀ a b, (le a b || le b a) = true) (l : List α) (off lim : Nat) :
    (((l.mergeSort le).drop off).take lim).Pairwise (fun a b => le a b = true) :=
  List.Pairwise.sublist ((List.take_sublist _ _).trans (List.drop_sublist _ _))
    (List.sorted_mergeSort htrans htotal l)

/-- C9: every list route answers in its declared total order — the
organization and business listings sort createdAt descending (newest first),
the brand and franchise listings sort name ascending (JavaScript string
order), and filtering and paging do not disturb the order. -/
theorem list_order_spec :
    (∀ (s : Store) (q : Option Bool) (lim off : Nat),
       (listOrganizations s q lim off).Pairwise
         fun a b => b.createdAt ≤ a.createdAt) ∧
    (∀ (s : Store) (orgId : Nat),
       (listBrandsByOrganization s orgId).Pairwise
         fun a b => jsStrLe a.name b.name = true) ∧
    (∀ (s : Store) (orgId : Nat) (bq : Option Nat) (q : Option Bool) (lim off : Nat),
       (listBusinessesByOrganization s orgId bq q lim off).Pairwise
         fun a b => b.business.createdAt ≤ a.business.createdAt) ∧
    (∀ (s : Store) (businessId : Nat) (q : Option Bool) (lim off : Nat),
       (listFranchisesByBusiness s businessId q lim off).Pairwise
         fun a b => jsStrLe a.name b.name = true) := by
  refine ⟨?_, ?_, ?_, ?_⟩
  · intro s q lim off
    have hp := pairwise_sorted_page
      (fun a b : Organization => decide (b.createdAt ≤ a.createdAt))
      (fun a b c h1 h2 =>
        decide_eq_true (Nat.le_trans (of_decide_eq_true h2) (of_decide_eq_true h1)))
      (fun a b => by
        rcases Nat.le_total b.createdAt a.createdAt with h | h <;> simp [h])
      (s.organizations.filter fun o =>
        match q with
        | none => true
        | some b => o.isActive == b) off lim
    exact List.Pairwise.imp (fun h => of_decide_eq_true h) hp
  · intro s orgId
    exact @List.sorted_mergeSort _ (fun a b : Brand => jsStrLe a.name b.name)
      (fun a b c h1 h2 => jsStrLe_trans h1 h2)
      (fun a b => jsStrLe_total a.name b.name)
      (s.brands.filter fun b => b.organizationId == orgId && b.isActive)
  · intro s orgId bq q lim off
    have hp := pairwise_sorted_page
      (fun a b : Business => decide (b.createdAt ≤ a.createdAt))
      (fun a b c h1 h2 =>
        decide_eq_true (Nat.le_trans (of_decide_eq_true h2) (of_decide_eq_true h1)))
      (fun a b => by
        rcases Nat.le_total b.createdAt a.createdAt with h | h <;> simp [h])
      (s.businesses.filter fun b =>
        b.organizationId == orgId &&
        (match bq with
         | none => true
         | some qq => b.brandId == some qq) &&
        (match q with
         | none => true
         | some qq => b.isActive == qq)) off lim
    exact List.pairwise_map.mpr (List.Pairwise.imp (fun h => of_decide_eq_true h) hp)
  · intro s businessId q lim off
    have hp := pairwise_sorted_page
      (fun a b : Franchise => jsStrLe a.name b.name)
      (fun a b c h1 h2 => jsStrLe_trans h1 h2)
      (fun a b => jsStrLe_total a.name b.name)
      (s.franchises.filter fun f =>
        f.businessId == businessId &&
        (match q with
         | none => true
         | some qq => f.isActive == qq)) off lim
    exact hp

/-- Helper: a find?-by-id miss is exactly the absence of any element with
that id. -/
theorem find?_id_eq_none_iff (l : List α) (idOf : α → Nat) (id : Nat) :
    l.find? (fun x => idOf x == id) = none ↔ ¬ ∃ x ∈ l, idOf x = id := by
  rw [List.find?_eq_none]
  constructor
  · rintro hall ⟨x, hx, hxe⟩
    exact absurd (by simpa using hxe) (by simpa using hall x hx)
  · intro hne x hx
    simp only [beq_iff_eq]
    intro he
    exact hne ⟨x, hx, he⟩

/-- C8 counterexample: the claim covers getById for every entity type,
Brand included, but the route table registers no GET handler for a single
brand: a GET of api/brands/11 matches no route even though brand 11 exists
in the sample store, so the request falls through to the catch-all 404
Route-not-found handler instead of returning the record. -/
theorem brand_direct_lookup_unroutable :
    (sampleStore.brands.map fun b => b.id) = [11, 12] ∧
    matchRoute Method.get ["api", "brands", "11"] = none ∧
    fallbackResponse.status = 404 ∧ fallbackResponse.success = false :=
  ⟨rfl, rfl, rfl, rfl⟩

/-- C8 amended: for the three entity types that do expose a getById route
(Organization, Business, Franchise — Brand has none), the route answers 404
exactly when no record carries the identifier, and otherwise answers 200
with the record, soft-deleted records included, since findById applies no
isActive filter. -/
theorem getById_spec (s : Store) (id : Nat) :
    ((getOrganizationById s id).status = 404 ↔ ¬ ∃ o ∈ s.organizations, o.id = id) ∧
    (∀ o, s.organizations.find? (fun x => x.id == id) = some o →
       getOrganizationById s id =
         { status := 200, success := true, error := none, data := some o }) ∧
    ((getBusinessById s id).status = 404 ↔ ¬ ∃ b ∈ s.businesses, b.id = id) ∧
    (∀ b, s.businesses.find? (fun x => x.id == id) = some b →
       getBusinessById s id =
         { status := 200, success := true, error := none, data := some b }) ∧
    ((getFranchiseById s id).status = 404 ↔ ¬ ∃ f ∈ s.franchises, f.id = id) ∧
    (∀ f, s.franchises.find? (fun x => x.id == id) = some f →
       getFranchiseById s id =
         { status := 200, success := true, error := none, data := some f }) := by
  refine ⟨?_, ?_, ?_, ?_, ?_, ?_⟩
  · cases hfind : s.organizations.find? (fun o => o.id == id) with
    | none =>
      simp only [getOrganizationById, hfind]
      exact iff_of_true trivial ((find?_id_eq_none_iff s.organizations (fun o => o.id) id).mp hfind)
    | some o =>
      simp only [getOrganizationById, hfind]
      exact iff_of_false (by decide)
        (fun hne => hne ⟨o, List.mem_of_find?_eq_some hfind,
          by simpa using List.find?_some hfind⟩)
  · intro o hfind
    simp [getOrganizationById, hfind]
  · cases hfind : s.businesses.find? (fun b => b.id == id) with
    | none =>
      simp only [getBusinessById, hfind]
      exact iff_of_true trivial ((find?_id_eq_none_iff s.businesses (fun b => b.id) id).mp hfind)
    | some b =>
      simp only [getBusinessById, hfind]
      exact iff_of_false (by decide)
        (fun hne => hne ⟨b, List.mem_of_find?_eq_some hfind,
          by simpa using List.find?_some hfind⟩)
  · intro b hfind
    simp [getBusinessById, hfind]
  · cases hfind : s.franchises.find? (fun f => f.id == id) with
    | none =>
      simp only [getFranchiseById, hfind]
      exact iff_of_true trivial ((find?_id_eq_none_iff s.franchises (fun f => f.id) id).mp hfind)
    | some f =>
      simp only [getFranchiseById, hfind]
      exact iff_of_false (by decide)
        (fun hne => hne ⟨f, List.mem_of_find?_eq_some hfind,
          by simpa using List.find?_some hfind⟩)
  · intro f hfind
    simp [getFranchiseById, hfind]

/-- C8 witness: the soft-deleted organization 2, business 23 and franchise
33 of the sample store are all still returned by their getById routes. -/
theorem getById_spec_witness :
    orgTwo.isActive = false ∧
    getOrganizationById sampleStore 2 =
      { status := 200, success := true, error := none, data := some orgTwo } ∧
    getBusinessById sampleStore 23 =
      { status := 200, success := true, error := none, data := some bizTwentyThree } ∧
    getFranchiseById sampleStore 33 =
      { status := 200, success := true, error := none, data := some frThirtyThree } := by
  refine ⟨rfl, ?_, ?_, ?_⟩
  · exact (getById_spec sampleStore 2).2.1 orgTwo rfl
  · exact (getById_spec sampleStore 23).2.2.2.1 bizTwentyThree rfl
  · exact (getById_spec sampleStore 33).2.2.2.2.2 frThirtyThree rfl

/-- C1: the hierarchy route answers 404 exactly when no organization (active
or not) carries the requested id; on a hit the payload holds that
organization, exactly the active brands of the organization, exactly its
active businesses each annotated with the resolved brand reference, and
exactly the active franchises whose businessId belongs to one of those
active businesses. -/
theorem hierarchy_spec (s : Store) (orgId : Nat) :
    ((getHierarchy s orgId).status = 404 ↔ ¬ ∃ o ∈ s.organizations, o.id = orgId) ∧
    (∀ h, (getHierarchy s orgId).data = some h →
      (h.organization ∈ s.organizations ∧ h.organization.id = orgId) ∧
      (∀ b, b ∈ h.brands ↔
         b ∈ s.brands ∧ b.organizationId = orgId ∧ b.isActive = true) ∧
      (∀ pb, pb ∈ h.businesses ↔
         pb.business ∈ s.businesses ∧ pb.business.organizationId = orgId ∧
         pb.business.isActive = true ∧
         pb.brandRef = populateBrandRef s pb.business) ∧
      (∀ f, f ∈ h.franchises ↔
         f ∈ s.franchises ∧ f.isActive = true ∧
         ∃ b ∈ s.businesses, b.organizationId = orgId ∧ b.isActive = true ∧
           f.businessId = b.id)) := by
  constructor
  · cases hfind : s.organizations.find? (fun o => o.id == orgId) with
    | none =>
      simp only [getHierarchy, hfind]
      exact iff_of_true trivial
        ((find?_id_eq_none_iff s.organizations (fun o => o.id) orgId).mp hfind)
    | some o =>
      simp only [getHierarchy, hfind]
      exact iff_of_false (by decide)
        (fun hne => hne ⟨o, List.mem_of_find?_eq_some hfind,
          by simpa using List.find?_some hfind⟩)
  · intro h hdata
    cases hfind : s.organizations.find? (fun o => o.id == orgId) with
    | none => simp [getHierarchy, hfind] at hdata
    | some o =>
      simp only [getHierarchy, hfind, Option.some.injEq] at hdata
      subst hdata
      refine ⟨⟨List.mem_of_find?_eq_some hfind,
        by simpa using List.find?_some hfind⟩, ?_, ?_, ?_⟩
      · intro b
        simp [List.mem_filter, Bool.and_eq_true, beq_iff_eq]
      · intro pb
        obtain ⟨bus, ref⟩ := pb
        simp only [List.mem_map, List.mem_filter, Bool.and_eq_true, beq_iff_eq,
          PopulatedBusiness.mk.injEq]
        constructor
        · rintro ⟨b, ⟨hbmem, hborg, hbact⟩, hb, href⟩
          subst hb
          exact ⟨hbmem, hborg, hbact, href.symm⟩
        · rintro ⟨hbmem, hborg, hbact, href⟩
          exact ⟨bus, ⟨hbmem, hborg, hbact⟩, rfl, href.symm⟩
      · intro f
        simp only [List.mem_filter, Bool.and_eq_true, beq_iff_eq,
          List.contains_iff_exists_mem_beq, List.mem_map]
        constructor
        · rintro ⟨hfmem, ⟨x, ⟨b, ⟨hbmem, hborg, hbact⟩, hbid⟩, hxe⟩, hfact⟩
          refine ⟨hfmem, hfact, b, hbmem, hborg, hbact, ?_⟩
          have : f.businessId = x := by simpa using hxe
          omega
        · rintro ⟨hfmem, hfact, b, hbmem, hborg, hbact, hfb⟩
          exact ⟨hfmem, ⟨b.id, ⟨b, ⟨hbmem, hborg, hbact⟩, rfl⟩,
            by simpa using hfb⟩, hfact⟩

/-- C1 witness: the hierarchy of organization 1 in the sample store — its
payload contains exactly the active brand 11, the active businesses 21 and
22 (21 annotated with brand 11), and the active franchises 31, 32, 41 and 42
under those businesses, leaving out everything soft-deleted. -/
theorem hierarchy_spec_witness :
    (getHierarchy sampleStore 1).data =
      some { organization := orgOne,
             brands := [brandEleven],
             businesses :=
               [{ business := bizTwentyOne,
                  brandRef := some { id := 11, name := "Acme Fresh" } },
                { business := bizTwentyTwo, brandRef := none },
                { business := bizLim, brandRef := none }],
             franchises := [frThirtyOne, frThirtyTwo, frFortyOne, frFortyTwo] } ∧
    (brandEleven ∈ sampleStore.brands ∧ brandEleven.organizationId = 1 ∧
      brandEleven.isActive = true) ∧
    (frThirtyOne ∈ sampleStore.franchises ∧ frThirtyOne.isActive = true ∧
      ∃ b ∈ sampleStore.businesses, b.organizationId = 1 ∧ b.isActive = true ∧
        frThirtyOne.businessId = b.id) := by
  have hd : (getHierarchy sampleStore 1).data =
      some { organization := orgOne,
             brands := [brandEleven],
             businesses :=
               [{ business := bizTwentyOne,
                  brandRef := some { id := 11, name := "Acme Fresh" } },
                { business := bizTwentyTwo, brandRef := none },
                { business := bizLim, brandRef := none }],
             franchises := [frThirtyOne, frThirtyTwo, frFortyOne, frFortyTwo] } := by
    rfl
  have hmain := (hierarchy_spec sampleStore 1).2 _ hd
  refine ⟨hd, ?_, ?_⟩
  · exact (hmain.2.1 brandEleven).mp (by simp)
  · exact (hmain.2.2.2 frThirtyOne).mp (by simp)

/-- Helper: a successfully built organization carries the request instant as
both of its timestamps. -/
theorem buildOrganization_timestamps (p : OrganizationInput) (newId now : Nat)
    (org : Organization) (h : buildOrganization p newId now = .ok org) :
    org.createdAt = now ∧ org.updatedAt = now := by
  unfold buildOrganization at h
  repeat' split at h
  all_goals first
    | exact Except.noConfusion h
    | (injection h with h2; subst h2; exact ⟨rfl, rfl⟩)

/-- Helper: a successfully built brand carries the request instant as both
of its timestamps. -/
theorem buildBrand_timestamps (p : BrandInput) (newId now : Nat)
    (br : Brand) (h : buildBrand p newId now = .ok br) :
    br.createdAt = now ∧ br.updatedAt = now := by
  unfold buildBrand at h
  repeat' split at h
  all_goals first
    | exact Except.noConfusion h
    | (injection h with h2; subst h2; exact ⟨rfl, rfl⟩)

/-- Helper: a successfully built business carries the request instant as
both of its timestamps. -/
theorem buildBusiness_timestamps (p : BusinessInput) (newId now : Nat)
    (b : Business) (h : buildBusiness p newId now = .ok b) :
    b.createdAt = now ∧ b.updatedAt = now := by
  unfold buildBusiness at h
  repeat' split at h
  all_goals first
    | exact Except.noConfusion h
    | (injection h with h2; subst h2; exact ⟨rfl, rfl⟩)

/-- Helper: a successfully built franchise carries the request instant as
both of its timestamps. -/
theorem buildFranchise_timestamps (p : FranchiseInput) (newId now : Nat)
    (f : Franchise) (h : buildFranchise p newId now = .ok f) :
    f.createdAt = now ∧ f.updatedAt = now := by
  unfold buildFranchise at h
  repeat' split at h
  all_goals first
    | exact Except.noConfusion h
    | (injection h with h2; subst h2; exact ⟨rfl, rfl⟩)

/-- C6: every entity a create route returns satisfies createdAt equal to
updatedAt (the embedding reads the clock once per request, so the default
evaluation and the pre-save hook of one save see the same instant), and
every successful update stamps updatedAt with the request's instant — the
schemas' timestamps option refreshes it on findByIdAndUpdate — so under a
monotone clock updatedAt never decreases. -/
theorem timestamps_spec :
    (∀ (s : Store) (p : OrganizationInput) (newId now : Nat) (org : Organization),
       (createOrganization s p newId now).2.data = some org →
       org.createdAt = org.updatedAt) ∧
    (∀ (s : Store) (p : BrandInput) (newId now : Nat) (br : Brand),
       (createBrand s p newId now).2.data = some br →
       br.createdAt = br.updatedAt) ∧
    (∀ (s : Store) (p : BusinessInput) (newId now : Nat) (b : Business),
       (createBusiness s p newId now).2.data = some b →
       b.createdAt = b.updatedAt) ∧
    (∀ (s : Store) (p : FranchiseInput) (newId now : Nat) (f : Franchise),
       (createFranchise s p newId now).2.data = some f →
       f.createdAt = f.updatedAt) ∧
    (∀ (s : Store) (id : Nat) (u : OrganizationUpdate) (now : Nat)
       (o2 o1 : Organization),
       (updateOrganization s id u now).2.data = some o2 →
       s.organizations.find? (fun o => o.id == id) = some o1 →
       o2.updatedAt = now ∧ (o1.updatedAt ≤ now → o1.updatedAt ≤ o2.updatedAt)) ∧
    (∀ (s : Store) (id : Nat) (u : BusinessUpdate) (now : Nat) (b2 b1 : Business),
       (updateBusiness s id u now).2.data = some b2 →
       s.businesses.find? (fun b => b.id == id) = some b1 →
       b2.updatedAt = now ∧ (b1.updatedAt ≤ now → b1.updatedAt ≤ b2.updatedAt)) ∧
    (∀ (s : Store) (id : Nat) (u : FranchiseUpdate) (now : Nat) (f2 f1 : Franchise),
       (updateFranchise s id u now).2.data = some f2 →
       s.franchises.find? (fun f => f.id == id) = some f1 →
       f2.updatedAt = now ∧ (f1.updatedAt ≤ now → f1.updatedAt ≤ f2.updatedAt)) := by
  refine ⟨?_, ?_, ?_, ?_, ?_, ?_, ?_⟩
  · intro s p newId now org hdata
    cases hb : buildOrganization p newId now with
    | error e => simp [createOrganization, hb] at hdata
    | ok org2 =>
      simp only [createOrganization, hb, Option.some.injEq] at hdata
      obtain ⟨h1, h2⟩ := buildOrganization_timestamps p newId now org2 hb
      rw [← hdata, h1, h2]
  · intro s p newId now br hdata
    cases hb : buildBrand p newId now with
    | error e => simp [createBrand, hb] at hdata
    | ok br2 =>
      simp only [createBrand, hb, Option.some.injEq] at hdata
      obtain ⟨h1, h2⟩ := buildBrand_timestamps p newId now br2 hb
      rw [← hdata, h1, h2]
  · intro s p newId now b hdata
    cases hb : buildBusiness p newId now with
    | error e => simp [createBusiness, hb] at hdata
    | ok b2 =>
      simp only [createBusiness, hb, Option.some.injEq] at hdata
      obtain ⟨h1, h2⟩ := buildBusiness_timestamps p newId now b2 hb
      rw [← hdata, h1, h2]
  · intro s p newId now f hdata
    cases hb : buildFranchise p newId now with
    | error e => simp [createFranchise, hb] at hdata
    | ok f2 =>
      simp only [createFranchise, hb, Option.some.injEq] at hdata
      obtain ⟨h1, h2⟩ := buildFranchise_timestamps p newId now f2 hb
      rw [← hdata, h1, h2]
  · intro s id u now o2 o1 hdata hfind
    simp only [updateOrganization, hfind, Option.some.injEq] at hdata
    subst hdata
    exact ⟨rfl, fun hle => hle⟩
  · intro s id u now b2 b1 hdata hfind
    simp only [updateBusiness, hfind, Option.some.injEq] at hdata
    subst hdata
    exact ⟨rfl, fun hle => hle⟩
  · intro s id u now f2 f1 hdata hfind
    simp only [updateFranchise, hfind, Option.some.injEq] at hdata
    subst hdata
    exact ⟨rfl, fun hle => hle⟩

/-- Valid create payload for an organization. -/
def orgInputW : OrganizationInput :=
  { name := some "Fresh Org", description := none, domain := none, logo := none,
    settings := none,
    contact := some { email := some "new@example.com", phone := none,
                      address := emptyPostalAddress },
    subscription := none, limits := none, isActive := none }

/-- Valid create payload for a brand. -/
def brandInputW : BrandInput :=
  { name := some "Fresh Brand", description := none, organizationId := some 1,
    logo := none, brandGuidelines := none, settings := none, contact := none,
    limits := none, isActive := none }

/-- Valid create payload for a business. -/
def businessInputW : BusinessInput :=
  { name := some "Fresh Biz", description := none, organizationId := some 1,
    brandId := none, ownerId := some 7, industry := some "retail",
    businessType := none,
    contact := some { email := some "fresh@example.com", phone := none,
                      website := none, address := none },
    settings := none, subscription := none, isActive := none }

/-- Valid create payload for a franchise. -/
def franchiseInputW : FranchiseInput :=
  { name := some "Fresh Franchise", businessId := some 21, managerId := none,
    address := some { street := some "2 Side St", city := some "Metropolis",
                      state := some "NY", country := some "US",
                      zipCode := some "10002", coordinates := some [1, 2] },
    contact := none, settings := none, capacity := none, isActive := none }

/-- Update payload touching only the organization name. -/
def orgUpdW : OrganizationUpdate :=
  { name := some "Renamed Org", description := none, domain := none,
    logo := none, settings := none, contact := none, subscription := none,
    limits := none, isActive := none }

/-- Update payload touching only the business name. -/
def bizUpdW : BusinessUpdate :=
  { name := some "Renamed Biz", description := none, organizationId := none,
    brandId := none, ownerId := none, industry := none, businessType := none,
    contact := none, settings := none, subscription := none, isActive := none }

/-- Update payload touching only the franchise name. -/
def frUpdW : FranchiseUpdate :=
  { name := some "Renamed Franchise", businessId := none, managerId := none,
    address := none, contact := none, settings := none, capacity := none,
    isActive := none }

/-- The organization returned by creating orgInputW at instant 10. -/
def createdOrgW : Organization :=
  ((createOrganization emptyStore orgInputW 90 10).2.data).getD orgOne

/-- The brand returned by creating brandInputW at instant 11. -/
def createdBrandW : Brand :=
  ((createBrand emptyStore brandInputW 91 11).2.data).getD brandEleven

/-- The business returned by creating businessInputW at instant 12. -/
def createdBizW : Business :=
  ((createBusiness emptyStore businessInputW 92 12).2.data).getD bizTwentyOne

/-- The franchise returned by creating franchiseInputW at instant 13. -/
def createdFrW : Franchise :=
  ((createFranchise emptyStore franchiseInputW 93 13).2.data).getD frThirtyOne

/-- The organization returned by renaming organization 1 at instant 500. -/
def updatedOrgW : Organization :=
  ((updateOrganization sampleStore 1 orgUpdW 500).2.data).getD orgOne

/-- The business returned by renaming business 21 at instant 500. -/
def updatedBizW : Business :=
  ((updateBusiness sampleStore 21 bizUpdW 500).2.data).getD bizTwentyOne

/-- The franchise returned by renaming franchise 31 at instant 500. -/
def updatedFrW : Franchise :=
  ((updateFranchise sampleStore 31 frUpdW 500).2.data).getD frThirtyOne

/-- C6 witness: each of the four creates returns equal timestamps, and each
of the three renames at instant 500 stamps updatedAt 500, not below the
previous value. -/
theorem timestamps_spec_witness :
    createdOrgW.createdAt = createdOrgW.updatedAt ∧
    createdBrandW.createdAt = createdBrandW.updatedAt ∧
    createdBizW.createdAt = createdBizW.updatedAt ∧
    createdFrW.createdAt = createdFrW.updatedAt ∧
    updatedOrgW.updatedAt = 500 ∧ orgOne.updatedAt ≤ updatedOrgW.updatedAt ∧
    updatedBizW.updatedAt = 500 ∧ bizTwentyOne.updatedAt ≤ updatedBizW.updatedAt ∧
    updatedFrW.updatedAt = 500 ∧ frThirtyOne.updatedAt ≤ updatedFrW.updatedAt := by
  refine ⟨?_, ?_, ?_, ?_, ?_, ?_, ?_, ?_, ?_, ?_⟩
  · exact timestamps_spec.1 emptyStore orgInputW 90 10 createdOrgW rfl
  · exact timestamps_spec.2.1 emptyStore brandInputW 91 11 createdBrandW rfl
  · exact timestamps_spec.2.2.1 emptyStore businessInputW 92 12 createdBizW rfl
  · exact timestamps_spec.2.2.2.1 emptyStore franchiseInputW 93 13 createdFrW rfl
  · exact (timestamps_spec.2.2.2.2.1 sampleStore 1 orgUpdW 500 updatedOrgW orgOne
      rfl rfl).1
  · exact (timestamps_spec.2.2.2.2.1 sampleStore 1 orgUpdW 500 updatedOrgW orgOne
      rfl rfl).2 (by decide)
  · exact (timestamps_spec.2.2.2.2.2.1 sampleStore 21 bizUpdW 500 updatedBizW
      bizTwentyOne rfl rfl).1
  · exact (timestamps_spec.2.2.2.2.2.1 sampleStore 21 bizUpdW 500 updatedBizW
      bizTwentyOne rfl rfl).2 (by decide)
  · exact (timestamps_spec.2.2.2.2.2.2 sampleStore 31 frUpdW 500 updatedFrW
      frThirtyOne rfl rfl).1
  · exact (timestamps_spec.2.2.2.2.2.2 sampleStore 31 frUpdW 500 updatedFrW
      frThirtyOne rfl rfl).2 (by decide)

/-- C7: partial update is merge-by-present-key on the three PUT routes
(Brand exposes none): every top-level document field absent from the update
payload keeps its stored value — it is never nulled — and createdAt is
likewise untouched; only the store-maintained updatedAt changes besides the
supplied fields. -/
theorem update_frame_spec :
    (∀ (s : Store) (id : Nat) (u : OrganizationUpdate) (now : Nat)
       (o2 o1 : Organization),
       (updateOrganization s id u now).2.data = some o2 →
       s.organizations.find? (fun o => o.id == id) = some o1 →
       o2.createdAt = o1.createdAt ∧
       (u.name = none → o2.name = o1.name) ∧
       (u.description = none → o2.description = o1.description) ∧
       (u.domain = none → o2.domain = o1.domain) ∧
       (u.logo = none → o2.logo = o1.logo) ∧
       (u.settings = none → o2.settings = o1.settings) ∧
       (u.contact = none → o2.contact = o1.contact) ∧
       (u.subscription = none → o2.subscription = o1.subscription) ∧
       (u.limits = none → o2.limits = o1.limits) ∧
       (u.isActive = none → o2.isActive = o1.isActive)) ∧
    (∀ (s : Store) (id : Nat) (u : BusinessUpdate) (now : Nat) (b2 b1 : Business),
       (updateBusiness s id u now).2.data = some b2 →
       s.businesses.find? (fun b => b.id == id) = some b1 →
       b2.createdAt = b1.createdAt ∧
       (u.name = none → b2.name = b1.name) ∧
       (u.description = none → b2.description = b1.description) ∧
       (u.organizationId = none → b2.organizationId = b1.organizationId) ∧
       (u.brandId = none → b2.brandId = b1.brandId) ∧
       (u.ownerId = none → b2.ownerId = b1.ownerId) ∧
       (u.industry = none → b2.industry = b1.industry) ∧
       (u.businessType = none → b2.businessType = b1.businessType) ∧
       (u.contact = none → b2.contact = b1.contact) ∧
       (u.settings = none → b2.settings = b1.settings) ∧
       (u.subscription = none → b2.subscription = b1.subscription) ∧
       (u.isActive = none → b2.isActive = b1.isActive)) ∧
    (∀ (s : Store) (id : Nat) (u : FranchiseUpdate) (now : Nat) (f2 f1 : Franchise),
       (updateFranchise s id u now).2.data = some f2 →
       s.franchises.find? (fun f => f.id == id) = some f1 →
       f2.createdAt = f1.createdAt ∧
       (u.name = none → f2.name = f1.name) ∧
       (u.businessId = none → f2.businessId = f1.businessId) ∧
       (u.managerId = none → f2.managerId = f1.managerId) ∧
       (u.address = none → f2.address = f1.address) ∧
       (u.contact = none → f2.contact = f1.contact) ∧
       (u.settings = none → f2.settings = f1.settings) ∧
       (u.capacity = none → f2.capacity = f1.capacity) ∧
       (u.isActive = none → f2.isActive = f1.isActive)) := by
  refine ⟨?_, ?_, ?_⟩
  · intro s id u now o2 o1 hdata hfind
    simp only [updateOrganization, hfind, Option.some.injEq] at hdata
    subst hdata
    refine ⟨rfl, ?_, ?_, ?_, ?_, ?_, ?_, ?_, ?_, ?_⟩ <;>
      (intro hu; simp [applyOrganizationUpdate, hu])
  · intro s id u now b2 b1 hdata hfind
    simp only [updateBusiness, hfind, Option.some.injEq] at hdata
    subst hdata
    refine ⟨rfl, ?_, ?_, ?_, ?_, ?_, ?_, ?_, ?_, ?_, ?_, ?_⟩ <;>
      (intro hu; simp [applyBusinessUpdate, hu])
  · intro s id u now f2 f1 hdata hfind
    simp only [updateFranchise, hfind, Option.some.injEq] at hdata
    subst hdata
    refine ⟨rfl, ?_, ?_, ?_, ?_, ?_, ?_, ?_, ?_⟩ <;>
      (intro hu; simp [applyFranchiseUpdate, hu])

/-- C7 witness: each of the three renames (payloads supplying only name)
leaves settings, contact and createdAt of the stored document unchanged. -/
theorem update_frame_spec_witness :
    (orgUpdW.settings = none ∧ orgUpdW.contact = none) ∧
    updatedOrgW.settings = orgOne.settings ∧
    updatedOrgW.contact = orgOne.contact ∧
    updatedOrgW.createdAt = orgOne.createdAt ∧
    updatedBizW.settings = bizTwentyOne.settings ∧
    updatedBizW.contact = bizTwentyOne.contact ∧
    updatedBizW.createdAt = bizTwentyOne.createdAt ∧
    updatedFrW.settings = frThirtyOne.settings ∧
    updatedFrW.contact = frThirtyOne.contact ∧
    updatedFrW.createdAt = frThirtyOne.createdAt := by
  refine ⟨⟨rfl, rfl⟩, ?_, ?_, ?_, ?_, ?_, ?_, ?_, ?_, ?_⟩
  · exact (update_frame_spec.1 sampleStore 1 orgUpdW 500 updatedOrgW orgOne
      rfl rfl).2.2.2.2.2.1 rfl
  · exact (update_frame_spec.1 sampleStore 1 orgUpdW 500 updatedOrgW orgOne
      rfl rfl).2.2.2.2.2.2.1 rfl
  · exact (update_frame_spec.1 sampleStore 1 orgUpdW 500 updatedOrgW orgOne
      rfl rfl).1
  · exact (update_frame_spec.2.1 sampleStore 21 bizUpdW 500 updatedBizW
      bizTwentyOne rfl rfl).2.2.2.2.2.2.2.2.2.1 rfl
  · exact (update_frame_spec.2.1 sampleStore 21 bizUpdW 500 updatedBizW
      bizTwentyOne rfl rfl).2.2.2.2.2.2.2.2.1 rfl
  · exact (update_frame_spec.2.1 sampleStore 21 bizUpdW 500 updatedBizW
      bizTwentyOne rfl rfl).1
  · exact (update_frame_spec.2.2 sampleStore 31 frUpdW 500 updatedFrW
      frThirtyOne rfl rfl).2.2.2.2.2.2.1 rfl
  · exact (update_frame_spec.2.2 sampleStore 31 frUpdW 500 updatedFrW
      frThirtyOne rfl rfl).2.2.2.2.2.1 rfl
  · exact (update_frame_spec.2.2 sampleStore 31 frUpdW 500 updatedFrW
      frThirtyOne rfl rfl).1

end Keephy
